import Mathlib

/-!
Verification of the pyconductor worker (`pyconductor/ConductorWorker.py`)
against its specification.

The Python module is embedded shallowly:

* Python values that flow through the worker are modelled by `PyVal`
  (dicts are association lists preserving insertion order, floats are
  modelled as rationals).
* The remote task client (`pyconductor.conductor`, an opaque RPC layer)
  is modelled by oracle functions supplied as parameters: `pollForTask`
  and `ackTask` results are `Except`-valued, and `updateTask` is an
  oracle indexed by the number of update calls already made in the
  current `execute` invocation, so that a first call may raise while a
  second succeeds.
* Exceptions are `Except String`; a `try/except` block becomes an
  explicit match on the body's outcome.
* Each method of `ConductorWorker` becomes a function returning a trace
  of the observable calls it made (update calls, ack calls, executed
  tasks, the propagated exception if any).
-/

namespace PyConductor

/-- A Python value as used by the worker: `None`, booleans, ints,
floats (modelled as rationals), strings, lists and dicts (association
lists in insertion order, as in Python 3.7+). -/
inductive PyVal where
  | none : PyVal
  | bool : Bool → PyVal
  | int : Int → PyVal
  | float : Rat → PyVal
  | str : String → PyVal
  | list : List PyVal → PyVal
  | dict : List (String × PyVal) → PyVal
deriving Repr

/-- A Python dict with string keys, e.g. a task, in insertion order. -/
abbrev Task := List (String × PyVal)

/-- Python `d[k]` lookup on a dict: first (unique) binding of `k`. -/
def dget : Task → String → Option PyVal
  | [], _ => Option.none
  | (k', v) :: rest, k => if k' = k then some v else dget rest k

/-- Python `d[k] = v` on a dict: replace in place when the key exists
(keeping its position), otherwise append at the end. -/
def dset : Task → String → PyVal → Task
  | [], k, v => [(k, v)]
  | (k', v') :: rest, k, v =>
    if k' = k then (k, v) :: rest else (k', v') :: dset rest k v

/-- Python `k in d` on a dict. -/
def hasKey (t : Task) (k : String) : Bool :=
  (dget t k).isSome

/-- Python truthiness of a value (`bool(v)`). -/
def PyVal.truthy : PyVal → Bool
  | .none => false
  | .bool b => b
  | .int n => n != 0
  | .float q => q != 0
  | .str s => s != ""
  | .list xs => !xs.isEmpty
  | .dict kvs => !kvs.isEmpty

/-- The message of the exception raised by `ConductorWorker.execute`
when the execution function's result fails validation. -/
def validationMsg : String :=
  "Task execution function MUST return a response as a dict with status, output and logs fields"

/-- The validation performed by `execute` on the execution function's
result: `type(resp) is not dict or not all(key in resp for key in
('status', 'output', 'logs'))` — negated, i.e. the passing condition. -/
def isRespValid : PyVal → Bool
  | .dict kvs => hasKey kvs "status" && hasKey kvs "output" && hasKey kvs "logs"
  | _ => false

/-- The task after `execute`'s three success-path assignments
`task['status'] = resp['status']`, `task['outputData'] = resp['output']`,
`task['logs'] = resp['logs']`, for `resp = PyVal.dict kvs`. -/
def successTask (task : Task) (kvs : Task) : Task :=
  dset (dset (dset task "status" ((dget kvs "status").getD .none))
      "outputData" ((dget kvs "output").getD .none))
    "logs" ((dget kvs "logs").getD .none)

/-- Outcome of `ConductorWorker.execute`: the arguments of the
`updateTask` calls it made (in order, including calls that raised),
the task dict after all mutations, the exception that propagated out
(if any), and the error line printed (if any). -/
structure ExecTrace where
  updates : List Task
  finalTask : Task
  raised : Option String
  logged : Option String
deriving Repr

/-- The `try` block of `ConductorWorker.execute`: run the execution
function, validate its result, on success mutate the task and call
`updateTask`. Returns the update calls made, the task as mutated so
far, and the exception the block raised (if any). `upd` is the
`updateTask` oracle, indexed by the number of update calls already made
in this `execute` invocation. -/
def executeTry (ef : Task → Except String PyVal)
    (upd : Nat → Task → Except String Unit) (task : Task) :
    List Task × Task × Option String :=
  match ef task with
  | .error e => ([], task, some e)
  | .ok resp =>
    if isRespValid resp then
      match resp with
      | .dict kvs =>
        let t1 := successTask task kvs
        match upd 0 t1 with
        | .ok _ => ([t1], t1, Option.none)
        | .error e => ([t1], t1, some e)
      | _ => ([], task, some validationMsg)
    else ([], task, some validationMsg)

/-- `ConductorWorker.execute(task, exec_function)`: the `try` block,
and on any exception the `except` handler, which prints the error,
sets `task['status'] = 'FAILED'` and calls `updateTask` again; an
exception from that call propagates. -/
def execute (ef : Task → Except String PyVal)
    (upd : Nat → Task → Except String Unit) (task : Task) : ExecTrace :=
  match executeTry ef upd task with
  | (us, t, Option.none) => ⟨us, t, Option.none, Option.none⟩
  | (us, t, some err) =>
    let msg := "Error executing task: " ++ err
    let t2 := dset t "status" (.str "FAILED")
    match upd us.length t2 with
    | .ok _ => ⟨us ++ [t2], t2, Option.none, some msg⟩
    | .error e2 => ⟨us ++ [t2], t2, some e2, some msg⟩

/-! ## The polling loops -/

/-- Outcome of one iteration of a polling loop: the `ackTask` calls made
(arguments `(taskId, workerId)`, including a call that raised), the tasks
`execute` was invoked on (`poll_and_execute`) or spawned on a thread
(`consume`), the `updateTask` calls made by a synchronous `execute`, and
the exception that propagated out of the iteration (if any). -/
structure IterTrace where
  ackCalls : List (PyVal × String)
  execTasks : List Task
  updates : List Task
  raised : Option String
deriving Repr

/-- One iteration of the `while True` body of
`ConductorWorker.poll_and_execute` (after the sleep): poll, and if a
task was returned and `ackTask(polled['taskId'], worker_id)` is truthy,
run `execute` synchronously. `pollRes` is the outcome of this
iteration's `pollForTask` call; `ackF` is the `ackTask` oracle. -/
def pollAndExecuteIter (ef : Task → Except String PyVal)
    (upd : Nat → Task → Except String Unit) (workerId : String)
    (pollRes : Except String (Option Task))
    (ackF : PyVal → String → Except String PyVal) : IterTrace :=
  match pollRes with
  | .error e => ⟨[], [], [], some e⟩
  | .ok Option.none => ⟨[], [], [], Option.none⟩
  | .ok (some polled) =>
    match dget polled "taskId" with
    | Option.none => ⟨[], [], [], some "KeyError: taskId"⟩
    | some tid =>
      match ackF tid workerId with
      | .error e => ⟨[(tid, workerId)], [], [], some e⟩
      | .ok ackRes =>
        if ackRes.truthy then
          let tr := execute ef upd polled
          ⟨[(tid, workerId)], [polled], tr.updates, tr.raised⟩
        else ⟨[(tid, workerId)], [], [], Option.none⟩

/-- Control-flow outcome of one iteration of `consume`'s `while True`
loop: fall through to the next iteration, `break`, or an exception. -/
inductive LoopCtl where
  | cont : LoopCtl
  | brk : LoopCtl
  | raised : String → LoopCtl
deriving Repr, DecidableEq

/-- Trace of one iteration of `consume`'s loop body. -/
structure ConsumeIterTrace where
  ackCalls : List (PyVal × String)
  spawned : List Task
  ctl : LoopCtl
deriving Repr

/-- One iteration of the `while True` body of `ConductorWorker.consume`:
poll; `break` when no task is returned; otherwise, if
`ackTask(polled['taskId'], worker_id)` is truthy, spawn a thread running
`execute` on the polled task (the spawned task is recorded; its
`updateTask` calls happen asynchronously on that thread). -/
def consumeIter (workerId : String) (pollRes : Except String (Option Task))
    (ackF : PyVal → String → Except String PyVal) : ConsumeIterTrace :=
  match pollRes with
  | .error e => ⟨[], [], .raised e⟩
  | .ok Option.none => ⟨[], [], .brk⟩
  | .ok (some polled) =>
    match dget polled "taskId" with
    | Option.none => ⟨[], [], .raised "KeyError: taskId"⟩
    | some tid =>
      match ackF tid workerId with
      | .error e => ⟨[(tid, workerId)], [], .raised e⟩
      | .ok ackRes =>
        ⟨[(tid, workerId)], if ackRes.truthy then [polled] else [], .cont⟩

/-- Trace of a whole `consume` call: number of `pollForTask` calls,
`ackTask` calls, tasks spawned for execution, whether the loop exited by
`break` (normal return), and the exception that propagated (if any). -/
structure ConsumeTrace where
  polls : Nat
  ackCalls : List (PyVal × String)
  spawned : List Task
  terminated : Bool
  raised : Option String
deriving Repr

/-- The `while True` loop of `ConductorWorker.consume`, starting at
iteration `i`, with `fuel` bounding the number of iterations modelled
(the Python loop is unbounded; `terminated = false` with `raised = none`
means the fuel ran out before the loop exited). `pollF i` is the result
of the `pollForTask` call of iteration `i`, `ackF i` the `ackTask`
oracle for iteration `i`. -/
def consumeLoop (workerId : String) (pollF : Nat → Except String (Option Task))
    (ackF : Nat → PyVal → String → Except String PyVal) :
    Nat → Nat → ConsumeTrace
  | _, 0 => ⟨0, [], [], false, Option.none⟩
  | i, fuel + 1 =>
    let it := consumeIter workerId (pollF i) (ackF i)
    match it.ctl with
    | .brk => ⟨1, it.ackCalls, it.spawned, true, Option.none⟩
    | .raised e => ⟨1, it.ackCalls, it.spawned, false, some e⟩
    | .cont =>
      let rest := consumeLoop workerId pollF ackF (i + 1) fuel
      ⟨rest.polls + 1, it.ackCalls ++ rest.ackCalls,
        it.spawned ++ rest.spawned, rest.terminated, rest.raised⟩

/-! ## Construction -/

/-- A sequence of decimal digit characters interpreted as a natural
number. -/
def digitsToNat (ds : List Char) : Nat :=
  ds.foldl (fun a c => a * 10 + (c.toNat - 48)) 0

/-- Parse an optional `+`/`-` sign; `true` means negative. -/
def parseSign : List Char → Bool × List Char
  | '-' :: cs => (true, cs)
  | '+' :: cs => (false, cs)
  | cs => (false, cs)

/-- Parse the unsigned mantissa of a Python float literal: digits with
an optional decimal point (`12`, `1.5`, `.5`, `2.`); at least one digit
is required. Returns its value and the unconsumed rest. -/
def parseMantissa (cs : List Char) : Option (Rat × List Char) :=
  let ip := cs.takeWhile Char.isDigit
  let rest := cs.dropWhile Char.isDigit
  match rest with
  | '.' :: rest2 =>
    let fp := rest2.takeWhile Char.isDigit
    let rest3 := rest2.dropWhile Char.isDigit
    if ip.isEmpty && fp.isEmpty then Option.none
    else some ((digitsToNat ip : Rat) + (digitsToNat fp : Rat) / ((10 : Rat) ^ fp.length), rest3)
  | _ => if ip.isEmpty then Option.none else some ((digitsToNat ip : Rat), rest)

/-- Parse an optional exponent part `e`/`E`, optional sign, digits.
Absence of an exponent yields exponent `0`. -/
def parseExp (cs : List Char) : Option (Int × List Char) :=
  match cs with
  | 'e' :: cs2 | 'E' :: cs2 =>
    let (neg, cs3) := parseSign cs2
    let ds := cs3.takeWhile Char.isDigit
    let rest := cs3.dropWhile Char.isDigit
    if ds.isEmpty then Option.none
    else some ((if neg then -(digitsToNat ds : Int) else (digitsToNat ds : Int)), rest)
  | _ => some (0, cs)

/-- Parse a whole string as a Python float literal: optional surrounding
spaces, optional sign, mantissa, optional exponent (the `inf`/`nan`
spellings and `_` digit separators are not modelled). -/
def parseFloatStr (s : String) : Option Rat :=
  let cs1 := (s.toList).dropWhile (fun c => c = ' ')
  let (neg, cs2) := parseSign cs1
  match parseMantissa cs2 with
  | Option.none => Option.none
  | some (m, rest) =>
    match parseExp rest with
    | Option.none => Option.none
    | some (e, rest2) =>
      if (rest2.dropWhile (fun c => c = ' ')).isEmpty then
        some ((if neg then -m else m) * (10 : Rat) ^ e)
      else Option.none

/-- Python's builtin `float(x)` on the values `PyVal` represents:
numbers and booleans are converted, numeric strings are parsed, and any
other value raises (`TypeError`/`ValueError`), as used by
`ConductorWorker.__init__` on `thread_count` and `polling_interval`. -/
def pyFloat : PyVal → Except String Rat
  | .bool b => .ok (if b then 1 else 0)
  | .int n => .ok (n : Rat)
  | .float q => .ok q
  | .str s =>
    match parseFloatStr s with
    | some q => .ok q
    | Option.none => .error ("ValueError: could not convert string to float: " ++ s)
  | .none => .error "TypeError: float() argument must be a string or a number, not NoneType"
  | .list _ => .error "TypeError: float() argument must be a string or a number, not list"
  | .dict _ => .error "TypeError: float() argument must be a string or a number, not dict"

/-- Modelled from the spec: `WFClientMgr` (in `pyconductor/conductor.py`,
which is not part of the sources here) is "treated as opaque remote
procedure calls" and out of scope; it is modelled as an opaque handle
pair constructed from the server endpoint, whose construction does not
fail. -/
structure WFClientMgr where
  serverUrl : String
deriving Repr, DecidableEq

/-- The state of a `ConductorWorker` after `__init__`. -/
structure ConductorWorker where
  workflowClient : WFClientMgr
  taskClient : WFClientMgr
  thread_count : Rat
  polling_interval : Rat
  worker_id : PyVal
deriving Repr

/-- `ConductorWorker.__init__(server_url, thread_count, polling_interval,
worker_id)`: build the client manager, coerce `thread_count` and
`polling_interval` with `float(...)` (an inconvertible value raises and
construction fails), and set `worker_id = worker_id or hostname`, where
`hostname` is the module-level `socket.gethostname()` value captured
when the module is loaded (a parameter here). -/
def ConductorWorker.init (hostname : String) (server_url : String)
    (thread_count polling_interval worker_id : PyVal) :
    Except String ConductorWorker :=
  let wfcMgr : WFClientMgr := ⟨server_url⟩
  match pyFloat thread_count with
  | .error e => .error e
  | .ok tc =>
    match pyFloat polling_interval with
    | .error e => .error e
    | .ok pint =>
      .ok ⟨wfcMgr, wfcMgr, tc, pint,
        if worker_id.truthy then worker_id else .str hostname⟩

/-! ## Dict lemmas -/

theorem dget_dset_same (t : Task) (k : String) (v : PyVal) :
    dget (dset t k v) k = some v := by
  induction t with
  | nil => simp [dget, dset]
  | cons kv rest ih =>
    by_cases h : kv.1 = k
    · simp [dget, dset, h]
    · simp [dget, dset, h, ih]

theorem dget_dset_ne (t : Task) (k k' : String) (v : PyVal) (h : k' ≠ k) :
    dget (dset t k v) k' = dget t k' := by
  have h' : ¬ k = k' := fun hh => h hh.symm
  induction t with
  | nil => simp [dget, dset, h']
  | cons kv rest ih =>
    by_cases hk : kv.1 = k
    · simp [dget, dset, hk, h']
    · simp [dget, dset, hk, ih]

theorem dget_successTask_status (task kvs : Task) :
    dget (successTask task kvs) "status" =
      some ((dget kvs "status").getD .none) := by
  rw [successTask, dget_dset_ne _ _ _ _ (by decide),
    dget_dset_ne _ _ _ _ (by decide), dget_dset_same]

theorem dget_successTask_outputData (task kvs : Task) :
    dget (successTask task kvs) "outputData" =
      some ((dget kvs "output").getD .none) := by
  rw [successTask, dget_dset_ne _ _ _ _ (by decide), dget_dset_same]

theorem dget_successTask_logs (task kvs : Task) :
    dget (successTask task kvs) "logs" =
      some ((dget kvs "logs").getD .none) := by
  rw [successTask, dget_dset_same]

/-! ## Characterization of the paths through `execute` -/

/-- When the execution function raises, the `try` block of `execute`
raises that exception having made no update call or mutation. -/
theorem executeTry_of_error (ef : Task → Except String PyVal)
    (upd : Nat → Task → Except String Unit) (task : Task) (e : String)
    (h : ef task = .error e) :
    executeTry ef upd task = ([], task, some e) := by
  simp [executeTry, h]

/-- When the execution function returns an invalid result, the `try`
block raises the validation exception having made no update call. -/
theorem executeTry_of_invalid (ef : Task → Except String PyVal)
    (upd : Nat → Task → Except String Unit) (task : Task) (r : PyVal)
    (h : ef task = .ok r) (hv : isRespValid r = false) :
    executeTry ef upd task = ([], task, some validationMsg) := by
  cases r <;> simp_all [executeTry, isRespValid]

/-- When the execution function returns a valid dict, the `try` block
mutates the task and calls `updateTask` on it, raising whatever that
call raises. -/
theorem executeTry_of_valid (ef : Task → Except String PyVal)
    (upd : Nat → Task → Except String Unit) (task kvs : Task)
    (h : ef task = .ok (.dict kvs)) (hv : isRespValid (.dict kvs) = true) :
    executeTry ef upd task =
      match upd 0 (successTask task kvs) with
      | .ok _ => ([successTask task kvs], successTask task kvs, Option.none)
      | .error e => ([successTask task kvs], successTask task kvs, some e) := by
  cases hu : upd 0 (successTask task kvs) <;> simp [executeTry, h, hv, hu]

/-- When the `try` block does not raise, `execute` returns its trace
unchanged: no `except` handler runs. -/
theorem execute_of_try_ok (ef : Task → Except String PyVal)
    (upd : Nat → Task → Except String Unit) (task : Task)
    (us : List Task) (t : Task)
    (h : executeTry ef upd task = (us, t, Option.none)) :
    execute ef upd task = ⟨us, t, Option.none, Option.none⟩ := by
  simp [execute, h]

/-- When the `try` block raises, the `except` handler prints the error,
sets the status to FAILED and calls `updateTask` once more; an exception
from that call propagates. -/
theorem execute_of_try_error (ef : Task → Except String PyVal)
    (upd : Nat → Task → Except String Unit) (task : Task)
    (us : List Task) (t : Task) (e : String)
    (h : executeTry ef upd task = (us, t, some e)) :
    execute ef upd task =
      match upd us.length (dset t "status" (.str "FAILED")) with
      | .ok _ => ⟨us ++ [dset t "status" (.str "FAILED")],
          dset t "status" (.str "FAILED"), Option.none,
          some ("Error executing task: " ++ e)⟩
      | .error e2 => ⟨us ++ [dset t "status" (.str "FAILED")],
          dset t "status" (.str "FAILED"), some e2,
          some ("Error executing task: " ++ e)⟩ := by
  cases hu : upd us.length (dset t "status" (.str "FAILED")) <;>
    simp [execute, h, hu]

/-- Complete case analysis of `execute`: either the `try` block raised
before any update call (user exception or validation failure) and the
only update is the FAILED report of the original task; or the result was
valid and the first update succeeded; or the result was valid, the first
update raised, and a second FAILED update followed. -/
theorem execute_cases (ef : Task → Except String PyVal)
    (upd : Nat → Task → Except String Unit) (task : Task) :
    (∃ e, (ef task = .error e
        ∨ ∃ r, ef task = .ok r ∧ isRespValid r = false ∧ e = validationMsg)
      ∧ (execute ef upd task).updates = [dset task "status" (.str "FAILED")]
      ∧ (execute ef upd task).raised =
          (match upd 0 (dset task "status" (.str "FAILED")) with
            | .ok _ => Option.none | .error e2 => some e2))
    ∨ (∃ kvs, ef task = .ok (.dict kvs) ∧ isRespValid (.dict kvs) = true
        ∧ upd 0 (successTask task kvs) = .ok ()
        ∧ execute ef upd task =
            ⟨[successTask task kvs], successTask task kvs, Option.none, Option.none⟩)
    ∨ (∃ kvs e, ef task = .ok (.dict kvs) ∧ isRespValid (.dict kvs) = true
        ∧ upd 0 (successTask task kvs) = .error e
        ∧ (execute ef upd task).updates =
            [successTask task kvs, dset (successTask task kvs) "status" (.str "FAILED")]
        ∧ (execute ef upd task).raised =
            (match upd 1 (dset (successTask task kvs) "status" (.str "FAILED")) with
              | .ok _ => Option.none | .error e2 => some e2)) := by
  cases hef : ef task with
  | error e =>
    left
    have ht := executeTry_of_error ef upd task e hef
    have h2 := execute_of_try_error ef upd task [] task e ht
    simp only [List.length_nil] at h2
    refine ⟨e, Or.inl rfl, ?_, ?_⟩ <;>
      cases hu : upd 0 (dset task "status" (.str "FAILED")) <;>
        rw [hu] at h2 <;> rw [h2] <;> rfl
  | ok r =>
    cases hv : isRespValid r with
    | false =>
      left
      have ht := executeTry_of_invalid ef upd task r hef hv
      have h2 := execute_of_try_error ef upd task [] task validationMsg ht
      simp only [List.length_nil] at h2
      refine ⟨validationMsg, Or.inr ⟨r, rfl, hv, rfl⟩, ?_, ?_⟩ <;>
        cases hu : upd 0 (dset task "status" (.str "FAILED")) <;>
          rw [hu] at h2 <;> rw [h2] <;> rfl
    | true =>
      cases r with
      | dict kvs =>
        have ht := executeTry_of_valid ef upd task kvs hef hv
        cases hu : upd 0 (successTask task kvs) with
        | ok u =>
          right; left
          rw [hu] at ht
          exact ⟨kvs, rfl, hv, by cases u; exact hu,
            execute_of_try_ok ef upd task _ _ ht⟩
        | error e =>
          right; right
          rw [hu] at ht
          have h2 := execute_of_try_error ef upd task _ _ e ht
          simp only [List.length_singleton] at h2
          refine ⟨kvs, e, rfl, hv, hu, ?_, ?_⟩ <;>
            cases hu1 : upd 1 (dset (successTask task kvs) "status" (.str "FAILED")) <;>
              rw [hu1] at h2 <;> rw [h2] <;> rfl
      | none => simp [isRespValid] at hv
      | bool b => simp [isRespValid] at hv
      | int n => simp [isRespValid] at hv
      | float q => simp [isRespValid] at hv
      | str s => simp [isRespValid] at hv
      | list xs => simp [isRespValid] at hv

/-! ## Concrete fixtures for witnesses and counterexamples -/

/-- The example task of the spec's scenario. -/
def exTask : Task := [("taskId", .str "t1")]

/-- The fields of the well-formed execution result of the spec's
scenario, `{'status': 'COMPLETED', 'output': {'x': 1}, 'logs': []}`. -/
def exKvs : Task :=
  [("status", .str "COMPLETED"), ("output", .dict [("x", .int 1)]), ("logs", .list [])]

/-- An execution function that returns the scenario's result. -/
def exEf : Task → Except String PyVal := fun _ => .ok (.dict exKvs)

/-- An `updateTask` oracle that never raises. -/
def updOk : Nat → Task → Except String Unit := fun _ _ => .ok ()

/-- An `updateTask` oracle whose first call raises and whose later calls
succeed. -/
def updFailFirst : Nat → Task → Except String Unit :=
  fun i _ => if i = 0 then .error "updateTask failed" else .ok ()

/-- An execution function that raises. -/
def efRaise : Task → Except String PyVal := fun _ => .error "user code crashed"

/-- An execution function returning a well-formed result whose status is
neither COMPLETED nor FAILED. -/
def efInProgress : Task → Except String PyVal :=
  fun _ => .ok (.dict
    [("status", .str "IN_PROGRESS"), ("output", .dict []), ("logs", .list [])])

/-- An `ackTask` oracle that always returns `True`. -/
def ackTrue : PyVal → String → Except String PyVal := fun _ _ => .ok (.bool true)

/-- An `ackTask` oracle that always returns the falsy value `0`. -/
def ackFalsy : PyVal → String → Except String PyVal := fun _ _ => .ok (.int 0)

/-! ## The claims -/

/-- C1: for every task and every execution function whose result is a
dict containing the keys `status`, `output` and `logs`,
`execute(task, exec_function)` copies `result['status']` into
`task['status']`, `result['output']` into `task['outputData']` and
`result['logs']` into `task['logs']`, and calls `updateTask` with that
mutated task (as its first update call). -/
theorem execute_success_updates_mutated_task
    (ef : Task → Except String PyVal) (upd : Nat → Task → Except String Unit)
    (task kvs : Task) (hresp : ef task = .ok (.dict kvs))
    (hv : isRespValid (.dict kvs) = true) :
    (execute ef upd task).updates.head? = some (successTask task kvs)
    ∧ dget (successTask task kvs) "status" = dget kvs "status"
    ∧ dget (successTask task kvs) "outputData" = dget kvs "output"
    ∧ dget (successTask task kvs) "logs" = dget kvs "logs" := by
  have hv' := hv
  simp only [isRespValid, hasKey, Bool.and_eq_true, Option.isSome_iff_exists] at hv'
  obtain ⟨⟨⟨sv, hsv⟩, ov, hov⟩, lv, hlv⟩ := hv'
  refine ⟨?_, ?_, ?_, ?_⟩
  · have ht := executeTry_of_valid ef upd task kvs hresp hv
    cases hu : upd 0 (successTask task kvs) with
    | ok u =>
      rw [hu] at ht
      rw [execute_of_try_ok ef upd task _ _ ht]
      rfl
    | error e =>
      rw [hu] at ht
      have h2 := execute_of_try_error ef upd task _ _ e ht
      cases hu1 : upd [successTask task kvs].length
          (dset (successTask task kvs) "status" (.str "FAILED")) <;>
        rw [hu1] at h2 <;> rw [h2] <;> rfl
  · rw [dget_successTask_status, hsv]; rfl
  · rw [dget_successTask_outputData, hov]; rfl
  · rw [dget_successTask_logs, hlv]; rfl

/-- Witness for C1, at the spec's scenario: task `{'taskId': 't1'}` and
result `{'status': 'COMPLETED', 'output': {'x': 1}, 'logs': []}` make
`updateTask` receive `{'taskId': 't1', 'status': 'COMPLETED',
'outputData': {'x': 1}, 'logs': []}`. -/
theorem execute_success_updates_mutated_task_witness :
    ((execute exEf updOk exTask).updates.head? = some (successTask exTask exKvs)
      ∧ dget (successTask exTask exKvs) "status" = dget exKvs "status"
      ∧ dget (successTask exTask exKvs) "outputData" = dget exKvs "output"
      ∧ dget (successTask exTask exKvs) "logs" = dget exKvs "logs")
    ∧ successTask exTask exKvs =
        [("taskId", .str "t1"), ("status", .str "COMPLETED"),
         ("outputData", .dict [("x", .int 1)]), ("logs", .list [])] :=
  ⟨execute_success_updates_mutated_task exEf updOk exTask exKvs rfl rfl, rfl⟩

/-- C2: when the execution function raises, or returns anything other
than a dict with keys `status`, `output` and `logs`, `execute` logs the
error, sets the task's status to FAILED, and still calls `updateTask`
with that task (and only with it). -/
theorem execute_failure_reports_failed
    (ef : Task → Except String PyVal) (upd : Nat → Task → Except String Unit)
    (task : Task)
    (h : (∃ e, ef task = .error e) ∨ ∃ r, ef task = .ok r ∧ isRespValid r = false) :
    (execute ef upd task).updates = [dset task "status" (.str "FAILED")]
    ∧ dget (dset task "status" (.str "FAILED")) "status" = some (.str "FAILED")
    ∧ (execute ef upd task).logged.isSome = true := by
  have ht : ∃ e, executeTry ef upd task = ([], task, some e) := by
    rcases h with ⟨e, he⟩ | ⟨r, hr, hv⟩
    · exact ⟨e, executeTry_of_error ef upd task e he⟩
    · exact ⟨validationMsg, executeTry_of_invalid ef upd task r hr hv⟩
  obtain ⟨e, ht⟩ := ht
  have h2 := execute_of_try_error ef upd task [] task e ht
  simp only [List.length_nil] at h2
  cases hu : upd 0 (dset task "status" (.str "FAILED")) <;> rw [hu] at h2 <;>
    rw [h2] <;> exact ⟨rfl, dget_dset_same _ _ _, rfl⟩

/-- Witness for C2: an execution function that raises makes `updateTask`
receive `{'taskId': 't1', 'status': 'FAILED'}`. -/
theorem execute_failure_reports_failed_witness :
    ((execute efRaise updOk exTask).updates = [dset exTask "status" (.str "FAILED")]
      ∧ dget (dset exTask "status" (.str "FAILED")) "status" = some (.str "FAILED")
      ∧ (execute efRaise updOk exTask).logged.isSome = true)
    ∧ dset exTask "status" (.str "FAILED") =
        [("taskId", .str "t1"), ("status", .str "FAILED")] :=
  ⟨execute_failure_reports_failed efRaise updOk exTask
      (Or.inl ⟨"user code crashed", rfl⟩), rfl⟩

/-- C3 as stated is false: when the success-path `updateTask` call
raises, the `except` handler of `execute` calls `updateTask` a second
time, so a single invocation of `execute` makes two update calls. -/
theorem execute_single_update_counterexample :
    (execute exEf updFailFirst exTask).updates.length = 2 := rfl

/-- C3 amended: a single invocation of `execute` calls `updateTask` at
least once and at most twice — exactly once unless the execution
function returned a valid result and the success-path `updateTask` call
itself raised, in which case a second (FAILED) update call follows. -/
theorem execute_update_count (ef : Task → Except String PyVal)
    (upd : Nat → Task → Except String Unit) (task : Task) :
    (1 ≤ (execute ef upd task).updates.length
      ∧ (execute ef upd task).updates.length ≤ 2)
    ∧ ((execute ef upd task).updates.length = 2 ↔
        ∃ kvs e, ef task = .ok (.dict kvs) ∧ isRespValid (.dict kvs) = true
          ∧ upd 0 (successTask task kvs) = .error e) := by
  rcases execute_cases ef upd task with
    ⟨e, hsrc, hupdates, _⟩ | ⟨kvs, hef, hv, hu, heq⟩ |
      ⟨kvs, e, hef, hv, hu, hupdates, _⟩
  · rw [hupdates]
    refine ⟨by simp, ?_, ?_⟩
    · intro h; simp at h
    · rintro ⟨kvs, e', h1, hv1, hu1⟩
      rcases hsrc with h2 | ⟨r, h2, hv2, _⟩
      · rw [h1] at h2; cases h2
      · rw [h1] at h2
        obtain rfl : PyVal.dict kvs = r := by
          simpa using h2
        rw [hv1] at hv2; cases hv2
  · rw [heq]
    refine ⟨by simp, ?_, ?_⟩
    · intro h; simp at h
    · rintro ⟨kvs', e', h1, hv1, hu1⟩
      rw [hef] at h1
      obtain rfl : kvs = kvs' := by simpa using h1
      rw [hu] at hu1; cases hu1
  · rw [hupdates]
    exact ⟨by simp, fun _ => ⟨kvs, e, hef, hv, hu⟩, fun _ => by simp⟩

/-- Witness for the amended C3, at a run whose first update call raises:
the update count is between one and two, and equals two because the
success-path update raised. -/
theorem execute_update_count_witness :
    (1 ≤ (execute exEf updFailFirst exTask).updates.length
      ∧ (execute exEf updFailFirst exTask).updates.length ≤ 2)
    ∧ ((execute exEf updFailFirst exTask).updates.length = 2 ↔
        ∃ kvs e, exEf exTask = .ok (.dict kvs) ∧ isRespValid (.dict kvs) = true
          ∧ updFailFirst 0 (successTask exTask kvs) = .error e) :=
  execute_update_count exEf updFailFirst exTask

/-- C6 as stated is false: `execute` copies the result's `status` field
verbatim, so an execution function reporting `'IN_PROGRESS'` makes
`updateTask` receive a status outside {COMPLETED, FAILED}. -/
theorem status_closed_set_counterexample :
    (execute efInProgress updOk exTask).updates =
      [[("taskId", .str "t1"), ("status", .str "IN_PROGRESS"),
        ("outputData", .dict []), ("logs", .list [])]]
    ∧ dget [("taskId", .str "t1"), ("status", .str "IN_PROGRESS"),
        ("outputData", .dict []), ("logs", .list [])] "status" =
        some (.str "IN_PROGRESS")
    ∧ PyVal.str "IN_PROGRESS" ≠ .str "COMPLETED"
    ∧ PyVal.str "IN_PROGRESS" ≠ .str "FAILED" := by
  refine ⟨rfl, rfl, ?_, ?_⟩ <;> intro h <;> simp at h

/-- C6 amended: every task reported by `execute` has its `status` field
set; it is `'FAILED'` on any failure report, and on the success-path
report it is exactly the `status` value of the execution function's
result, which is not constrained to the set {COMPLETED, FAILED}. -/
theorem execute_reported_status (ef : Task → Except String PyVal)
    (upd : Nat → Task → Except String Unit) (task : Task) (u : Task)
    (hu : u ∈ (execute ef upd task).updates) :
    (dget u "status").isSome = true
    ∧ (dget u "status" = some (.str "FAILED")
      ∨ ∃ kvs, ef task = .ok (.dict kvs) ∧ dget u "status" = dget kvs "status") := by
  have hstat : ∀ kvs : Task, isRespValid (.dict kvs) = true →
      ∃ sv, dget kvs "status" = some sv := by
    intro kvs hv
    simp only [isRespValid, hasKey, Bool.and_eq_true, Option.isSome_iff_exists] at hv
    exact hv.1.1
  rcases execute_cases ef upd task with
    ⟨e, _, hupdates, _⟩ | ⟨kvs, hef, hv, _, heq⟩ |
      ⟨kvs, e, hef, hv, _, hupdates, _⟩
  · rw [hupdates] at hu
    simp only [List.mem_singleton] at hu
    subst hu
    exact ⟨by rw [dget_dset_same]; rfl, Or.inl (dget_dset_same _ _ _)⟩
  · rw [heq] at hu
    simp only [List.mem_singleton] at hu
    subst hu
    obtain ⟨sv, hsv⟩ := hstat kvs hv
    refine ⟨by rw [dget_successTask_status]; rfl, Or.inr ⟨kvs, hef, ?_⟩⟩
    rw [dget_successTask_status, hsv]; rfl
  · rw [hupdates] at hu
    simp only [List.mem_cons, List.mem_singleton, List.not_mem_nil, or_false] at hu
    obtain ⟨sv, hsv⟩ := hstat kvs hv
    rcases hu with hu | hu <;> subst hu
    · refine ⟨by rw [dget_successTask_status]; rfl, Or.inr ⟨kvs, hef, ?_⟩⟩
      rw [dget_successTask_status, hsv]; rfl
    · exact ⟨by rw [dget_dset_same]; rfl, Or.inl (dget_dset_same _ _ _)⟩

/-- Witness for the amended C6, at the success path of the
`'IN_PROGRESS'` scenario. -/
theorem execute_reported_status_witness :
    (dget [("taskId", .str "t1"), ("status", .str "IN_PROGRESS"),
        ("outputData", .dict []), ("logs", .list [])] "status").isSome = true
    ∧ (dget [("taskId", .str "t1"), ("status", .str "IN_PROGRESS"),
        ("outputData", .dict []), ("logs", .list [])] "status" = some (.str "FAILED")
      ∨ ∃ kvs, efInProgress exTask = .ok (.dict kvs)
          ∧ dget [("taskId", .str "t1"), ("status", .str "IN_PROGRESS"),
              ("outputData", .dict []), ("logs", .list [])] "status" =
            dget kvs "status") :=
  execute_reported_status efInProgress updOk exTask
    [("taskId", .str "t1"), ("status", .str "IN_PROGRESS"),
      ("outputData", .dict []), ("logs", .list [])]
    (by simp [execute, executeTry, efInProgress, exTask, updOk, successTask,
      isRespValid, hasKey, dget, dset])

/-- C9: when the execution function returns a well-formed result and the
first `updateTask` call raises, `execute` catches the exception,
overwrites the status with FAILED while `outputData` and `logs` keep the
copied result values, calls `updateTask` a second time with that task,
and re-raises only what the second call raises. -/
theorem execute_failed_update_retry (ef : Task → Except String PyVal)
    (upd : Nat → Task → Except String Unit) (task kvs : Task) (e : String)
    (hresp : ef task = .ok (.dict kvs)) (hv : isRespValid (.dict kvs) = true)
    (h0 : upd 0 (successTask task kvs) = .error e) :
    (execute ef upd task).updates =
      [successTask task kvs, dset (successTask task kvs) "status" (.str "FAILED")]
    ∧ dget (dset (successTask task kvs) "status" (.str "FAILED")) "status" =
        some (.str "FAILED")
    ∧ dget (dset (successTask task kvs) "status" (.str "FAILED")) "outputData" =
        dget kvs "output"
    ∧ dget (dset (successTask task kvs) "status" (.str "FAILED")) "logs" =
        dget kvs "logs"
    ∧ (execute ef upd task).raised =
        (match upd 1 (dset (successTask task kvs) "status" (.str "FAILED")) with
          | .ok _ => Option.none | .error e2 => some e2) := by
  have hv' := hv
  simp only [isRespValid, hasKey, Bool.and_eq_true, Option.isSome_iff_exists] at hv'
  obtain ⟨⟨⟨sv, hsv⟩, ov, hov⟩, lv, hlv⟩ := hv'
  rcases execute_cases ef upd task with
    ⟨e', hsrc, _, _⟩ | ⟨kvs', hef', hv'', hu', _⟩ |
      ⟨kvs', e', hef', _, hu', hupdates, hraised⟩
  · exfalso
    rcases hsrc with h2 | ⟨r, h2, hv2, _⟩
    · rw [hresp] at h2; cases h2
    · rw [hresp] at h2
      obtain rfl : PyVal.dict kvs = r := by simpa using h2
      rw [hv] at hv2; cases hv2
  · exfalso
    rw [hresp] at hef'
    obtain rfl : kvs = kvs' := by simpa using hef'
    rw [h0] at hu'; cases hu'
  · rw [hresp] at hef'
    obtain rfl : kvs = kvs' := by simpa using hef'
    refine ⟨hupdates, dget_dset_same _ _ _, ?_, ?_, hraised⟩
    · rw [dget_dset_ne _ _ _ _ (by decide), dget_successTask_outputData, hov]; rfl
    · rw [dget_dset_ne _ _ _ _ (by decide), dget_successTask_logs, hlv]; rfl

/-- Witness for C9, at the scenario task with an `updateTask` oracle
whose first call raises and whose second call succeeds. -/
theorem execute_failed_update_retry_witness :
    (execute exEf updFailFirst exTask).updates =
      [successTask exTask exKvs,
        dset (successTask exTask exKvs) "status" (.str "FAILED")]
    ∧ dget (dset (successTask exTask exKvs) "status" (.str "FAILED")) "status" =
        some (.str "FAILED")
    ∧ dget (dset (successTask exTask exKvs) "status" (.str "FAILED")) "outputData" =
        dget exKvs "output"
    ∧ dget (dset (successTask exTask exKvs) "status" (.str "FAILED")) "logs" =
        dget exKvs "logs"
    ∧ (execute exEf updFailFirst exTask).raised =
        (match updFailFirst 1 (dset (successTask exTask exKvs) "status" (.str "FAILED")) with
          | .ok _ => Option.none | .error e2 => some e2) :=
  execute_failed_update_retry exEf updFailFirst exTask exKvs "updateTask failed"
    rfl rfl rfl

/-- C4: in an iteration of `poll_and_execute` or `consume`, execution
happens only after `ackTask(polled['taskId'], worker_id)` was called and
returned a truthy value; when the poll returns no task, or the ack is
falsy, neither execution nor any `updateTask` call occurs. -/
theorem iter_requires_ack (ef : Task → Except String PyVal)
    (upd : Nat → Task → Except String Unit) (workerId : String)
    (pollRes : Except String (Option Task))
    (ackF : PyVal → String → Except String PyVal) :
    ((pollAndExecuteIter ef upd workerId pollRes ackF).execTasks ≠ [] →
      ∃ tid r, (pollAndExecuteIter ef upd workerId pollRes ackF).ackCalls =
          [(tid, workerId)]
        ∧ ackF tid workerId = .ok r ∧ r.truthy = true)
    ∧ ((consumeIter workerId pollRes ackF).spawned ≠ [] →
      ∃ tid r, (consumeIter workerId pollRes ackF).ackCalls = [(tid, workerId)]
        ∧ ackF tid workerId = .ok r ∧ r.truthy = true)
    ∧ (pollRes = .ok Option.none →
        pollAndExecuteIter ef upd workerId pollRes ackF = ⟨[], [], [], Option.none⟩
        ∧ consumeIter workerId pollRes ackF = ⟨[], [], .brk⟩)
    ∧ (∀ polled tid r, pollRes = .ok (some polled) →
        dget polled "taskId" = some tid → ackF tid workerId = .ok r →
        r.truthy = false →
        pollAndExecuteIter ef upd workerId pollRes ackF =
          ⟨[(tid, workerId)], [], [], Option.none⟩
        ∧ consumeIter workerId pollRes ackF = ⟨[(tid, workerId)], [], .cont⟩) := by
  refine ⟨?_, ?_, ?_, ?_⟩
  · intro hne
    cases pollRes with
    | error e => simp [pollAndExecuteIter] at hne
    | ok po =>
      cases po with
      | none => simp [pollAndExecuteIter] at hne
      | some polled =>
        cases hd : dget polled "taskId" with
        | none => simp [pollAndExecuteIter, hd] at hne
        | some tid =>
          cases ha : ackF tid workerId with
          | error e => simp [pollAndExecuteIter, hd, ha] at hne
          | ok r =>
            cases ht : r.truthy with
            | false => simp [pollAndExecuteIter, hd, ha, ht] at hne
            | true =>
              exact ⟨tid, r, by simp [pollAndExecuteIter, hd, ha, ht], ha, ht⟩
  · intro hne
    cases pollRes with
    | error e => simp [consumeIter] at hne
    | ok po =>
      cases po with
      | none => simp [consumeIter] at hne
      | some polled =>
        cases hd : dget polled "taskId" with
        | none => simp [consumeIter, hd] at hne
        | some tid =>
          cases ha : ackF tid workerId with
          | error e => simp [consumeIter, hd, ha] at hne
          | ok r =>
            cases ht : r.truthy with
            | false => simp [consumeIter, hd, ha, ht] at hne
            | true =>
              exact ⟨tid, r, by simp [consumeIter, hd, ha, ht], ha, ht⟩
  · intro h; subst h; exact ⟨rfl, rfl⟩
  · intro polled tid r hp hd ha ht
    subst hp
    constructor <;> simp [pollAndExecuteIter, consumeIter, hd, ha, ht]

/-- Witness for C4, at a concrete polled task whose ack returns the
falsy value `0`: no execution and no update occurs. -/
theorem iter_requires_ack_witness :
    (((pollAndExecuteIter exEf updOk "w" (.ok (some exTask)) ackFalsy).execTasks ≠ [] →
      ∃ tid r, (pollAndExecuteIter exEf updOk "w" (.ok (some exTask)) ackFalsy).ackCalls =
          [(tid, "w")]
        ∧ ackFalsy tid "w" = .ok r ∧ r.truthy = true)
    ∧ ((consumeIter "w" (.ok (some exTask)) ackFalsy).spawned ≠ [] →
      ∃ tid r, (consumeIter "w" (.ok (some exTask)) ackFalsy).ackCalls = [(tid, "w")]
        ∧ ackFalsy tid "w" = .ok r ∧ r.truthy = true)
    ∧ ((.ok (some exTask) : Except String (Option Task)) = .ok Option.none →
        pollAndExecuteIter exEf updOk "w" (.ok (some exTask)) ackFalsy =
          ⟨[], [], [], Option.none⟩
        ∧ consumeIter "w" (.ok (some exTask)) ackFalsy = ⟨[], [], .brk⟩)
    ∧ (∀ polled tid r, (.ok (some exTask) : Except String (Option Task)) = .ok (some polled) →
        dget polled "taskId" = some tid → ackFalsy tid "w" = .ok r →
        r.truthy = false →
        pollAndExecuteIter exEf updOk "w" (.ok (some exTask)) ackFalsy =
          ⟨[(tid, "w")], [], [], Option.none⟩
        ∧ consumeIter "w" (.ok (some exTask)) ackFalsy = ⟨[(tid, "w")], [], .cont⟩))
    ∧ pollAndExecuteIter exEf updOk "w" (.ok (some exTask)) ackFalsy =
        ⟨[(.str "t1", "w")], [], [], Option.none⟩
    ∧ consumeIter "w" (.ok (some exTask)) ackFalsy =
        ⟨[(.str "t1", "w")], [], .cont⟩ :=
  ⟨iter_requires_ack exEf updOk "w" (.ok (some exTask)) ackFalsy,
    ((iter_requires_ack exEf updOk "w" (.ok (some exTask)) ackFalsy).2.2.2
      exTask (.str "t1") (.int 0) rfl rfl rfl rfl).1,
    ((iter_requires_ack exEf updOk "w" (.ok (some exTask)) ackFalsy).2.2.2
      exTask (.str "t1") (.int 0) rfl rfl rfl rfl).2⟩

/-- Helper for C5: starting at iteration `i`, if the poll of iteration
`i + n` returns no task, every earlier iteration falls through to the
next one, and the fuel covers `n + 1` iterations, then `consume`'s loop
breaks after exactly `n + 1` polls. -/
theorem consumeLoop_breaks (workerId : String)
    (pollF : Nat → Except String (Option Task))
    (ackF : Nat → PyVal → String → Except String PyVal) :
    ∀ n i fuel, n < fuel → pollF (i + n) = .ok Option.none →
    (∀ j, j < n → (consumeIter workerId (pollF (i + j)) (ackF (i + j))).ctl = .cont) →
    (consumeLoop workerId pollF ackF i fuel).terminated = true
    ∧ (consumeLoop workerId pollF ackF i fuel).polls = n + 1 := by
  intro n
  induction n with
  | zero =>
    intro i fuel hf hp _
    obtain ⟨f, rfl⟩ : ∃ f, fuel = f + 1 := ⟨fuel - 1, by omega⟩
    rw [Nat.add_zero] at hp
    constructor <;> simp [consumeLoop, consumeIter, hp]
  | succ n ih =>
    intro i fuel hf hp hc
    obtain ⟨f, rfl⟩ : ∃ f, fuel = f + 1 := ⟨fuel - 1, by omega⟩
    have h0 : (consumeIter workerId (pollF i) (ackF i)).ctl = .cont := by
      have := hc 0 (Nat.succ_pos n)
      simpa using this
    have hrest := ih (i + 1) f (by omega)
      (by rw [show i + 1 + n = i + (n + 1) by omega]; exact hp)
      (by intro j hj
          rw [show i + 1 + j = i + (j + 1) by omega]
          exact hc (j + 1) (by omega))
    constructor <;> simp [consumeLoop, h0, hrest.1, hrest.2]

/-- C5: `consume`'s loop returns control the first time `pollForTask`
returns no task — with enough fuel to reach that poll and all earlier
iterations falling through, the loop breaks having made exactly that
many polls; in particular, when the first poll returns no task, the loop
returns after exactly one poll with no ack and no execution. -/
theorem consume_stops_on_empty_poll (workerId : String)
    (pollF : Nat → Except String (Option Task))
    (ackF : Nat → PyVal → String → Except String PyVal) (fuel : Nat) :
    (∀ n, n < fuel → pollF n = .ok Option.none →
      (∀ j, j < n → (consumeIter workerId (pollF j) (ackF j)).ctl = .cont) →
      (consumeLoop workerId pollF ackF 0 fuel).terminated = true
      ∧ (consumeLoop workerId pollF ackF 0 fuel).polls = n + 1)
    ∧ (pollF 0 = .ok Option.none → 1 ≤ fuel →
        consumeLoop workerId pollF ackF 0 fuel = ⟨1, [], [], true, Option.none⟩) := by
  constructor
  · intro n hn hp hc
    exact consumeLoop_breaks workerId pollF ackF n 0 fuel hn
      (by rw [Nat.zero_add]; exact hp)
      (by intro j hj; rw [Nat.zero_add]; exact hc j hj)
  · intro hp hf
    obtain ⟨f, rfl⟩ : ∃ f, fuel = f + 1 := ⟨fuel - 1, by omega⟩
    simp [consumeLoop, consumeIter, hp]

/-- A `pollForTask` oracle whose queue is empty from the start. -/
def pollEmpty : Nat → Except String (Option Task) := fun _ => .ok Option.none

/-- A per-iteration `ackTask` oracle that always returns `True`. -/
def ackOracle : Nat → PyVal → String → Except String PyVal :=
  fun _ _ _ => .ok (.bool true)

/-- Witness for C5: an empty queue makes `consume` return after exactly
one poll, with no ack calls and nothing spawned. -/
theorem consume_stops_on_empty_poll_witness :
    consumeLoop "w" pollEmpty ackOracle 0 5 = ⟨1, [], [], true, Option.none⟩ :=
  (consume_stops_on_empty_poll "w" pollEmpty ackOracle 5).2 rfl (by decide)

/-- C7 as stated is false: an exception raised by the success-path
`updateTask` call inside `execute` is caught by this component — here
the first update call raises, yet nothing propagates out of the
`poll_and_execute` iteration, and a second (FAILED) update call is
made instead. -/
theorem update_exception_uncaught_counterexample :
    (pollAndExecuteIter exEf updFailFirst "w" (.ok (some exTask)) ackTrue).updates =
      [[("taskId", .str "t1"), ("status", .str "COMPLETED"),
        ("outputData", .dict [("x", .int 1)]), ("logs", .list [])],
       [("taskId", .str "t1"), ("status", .str "FAILED"),
        ("outputData", .dict [("x", .int 1)]), ("logs", .list [])]]
    ∧ updFailFirst 0 [("taskId", .str "t1"), ("status", .str "COMPLETED"),
        ("outputData", .dict [("x", .int 1)]), ("logs", .list [])] =
        .error "updateTask failed"
    ∧ (pollAndExecuteIter exEf updFailFirst "w" (.ok (some exTask)) ackTrue).raised =
        Option.none :=
  ⟨rfl, rfl, rfl⟩

/-- A task marked so that `efMixed` raises on it. -/
def crashTask : Task := [("taskId", .str "t0"), ("crash", .bool true)]

/-- An execution function that raises on tasks carrying a `crash` key
and returns the scenario's well-formed result otherwise. -/
def efMixed : Task → Except String PyVal :=
  fun t => if hasKey t "crash" then .error "user code crashed" else .ok (.dict exKvs)

/-- An `ackTask` oracle that raises. -/
def ackErr : PyVal → String → Except String PyVal := fun _ _ => .error "ack down"

/-- An `updateTask` oracle that always raises. -/
def updFailAll : Nat → Task → Except String Unit := fun _ _ => .error "update down"

/-- C7 amended: exceptions from `pollForTask` and `ackTask` propagate
uncaught out of the `poll_and_execute` and `consume` iterations;
exceptions from the user execution function are caught and converted to
a FAILED report; an exception from the success-path `updateTask` call
inside `execute` is likewise caught, triggering a second FAILED update;
only an exception from that `except`-clause `updateTask` call
propagates. -/
theorem exception_propagation (ef : Task → Except String PyVal)
    (upd : Nat → Task → Except String Unit) (workerId : String)
    (ackF : PyVal → String → Except String PyVal) :
    (∀ e, pollAndExecuteIter ef upd workerId (.error e) ackF = ⟨[], [], [], some e⟩
      ∧ consumeIter workerId (.error e) ackF = ⟨[], [], .raised e⟩)
    ∧ (∀ polled tid e, dget polled "taskId" = some tid →
        ackF tid workerId = .error e →
        pollAndExecuteIter ef upd workerId (.ok (some polled)) ackF =
          ⟨[(tid, workerId)], [], [], some e⟩
        ∧ consumeIter workerId (.ok (some polled)) ackF =
          ⟨[(tid, workerId)], [], .raised e⟩)
    ∧ (∀ task e, ef task = .error e →
        upd 0 (dset task "status" (.str "FAILED")) = .ok () →
        (execute ef upd task).raised = Option.none)
    ∧ (∀ task kvs e, ef task = .ok (.dict kvs) → isRespValid (.dict kvs) = true →
        upd 0 (successTask task kvs) = .error e →
        upd 1 (dset (successTask task kvs) "status" (.str "FAILED")) = .ok () →
        (execute ef upd task).raised = Option.none
        ∧ (execute ef upd task).updates.length = 2)
    ∧ (∀ task e e2, ef task = .error e →
        upd 0 (dset task "status" (.str "FAILED")) = .error e2 →
        (execute ef upd task).raised = some e2) := by
  refine ⟨fun e => ⟨rfl, rfl⟩, ?_, ?_, ?_, ?_⟩
  · intro polled tid e hd ha
    constructor <;> simp [pollAndExecuteIter, consumeIter, hd, ha]
  · intro task e hef h0
    have ht := executeTry_of_error ef upd task e hef
    have h2 := execute_of_try_error ef upd task [] task e ht
    simp only [List.length_nil] at h2
    rw [h0] at h2
    rw [h2]
  · intro task kvs e hef hv h0 h1
    have ht := executeTry_of_valid ef upd task kvs hef hv
    rw [h0] at ht
    have h2 := execute_of_try_error ef upd task _ _ e ht
    simp only [List.length_singleton] at h2
    rw [h1] at h2
    rw [h2]
    exact ⟨rfl, rfl⟩
  · intro task e e2 hef h0
    have ht := executeTry_of_error ef upd task e hef
    have h2 := execute_of_try_error ef upd task [] task e ht
    simp only [List.length_nil] at h2
    rw [h0] at h2
    rw [h2]

/-- Witness for the amended C7, at concrete oracles: a poll error and an
ack error propagate out of the iterations; a user-code exception and a
success-path update exception are caught; the `except`-clause update
exception propagates. -/
theorem exception_propagation_witness :
    (pollAndExecuteIter efMixed updFailFirst "w" (.error "poll down") ackTrue =
        ⟨[], [], [], some "poll down"⟩
      ∧ consumeIter "w" (.error "poll down") ackTrue = ⟨[], [], .raised "poll down"⟩)
    ∧ (pollAndExecuteIter efMixed updFailFirst "w" (.ok (some exTask)) ackErr =
        ⟨[(.str "t1", "w")], [], [], some "ack down"⟩
      ∧ consumeIter "w" (.ok (some exTask)) ackErr =
        ⟨[(.str "t1", "w")], [], .raised "ack down"⟩)
    ∧ (execute efMixed updOk crashTask).raised = Option.none
    ∧ ((execute efMixed updFailFirst exTask).raised = Option.none
      ∧ (execute efMixed updFailFirst exTask).updates.length = 2)
    ∧ (execute efMixed updFailAll crashTask).raised = some "update down" :=
  ⟨(exception_propagation efMixed updFailFirst "w" ackTrue).1 "poll down",
    (exception_propagation efMixed updFailFirst "w" ackErr).2.1
      exTask (.str "t1") "ack down" rfl rfl,
    (exception_propagation efMixed updOk "w" ackTrue).2.2.1
      crashTask "user code crashed" rfl rfl,
    (exception_propagation efMixed updFailFirst "w" ackTrue).2.2.2.1
      exTask exKvs "updateTask failed" rfl rfl rfl rfl,
    (exception_propagation efMixed updFailAll "w" ackTrue).2.2.2.2
      crashTask "user code crashed" "update down" rfl rfl⟩

/-- Whether an `Except` result is a success. -/
def isOkE {α : Type} : Except String α → Bool
  | .ok _ => true
  | .error _ => false

/-- C8: construction coerces `thread_count` and `polling_interval` with
`float(...)`; it succeeds exactly when both are convertible, and on
success stores the coerced values, the client handles, and the worker
identity unchanged thereafter. -/
theorem init_ok_iff_convertible (hostname server_url : String)
    (thread_count polling_interval worker_id : PyVal) :
    isOkE (ConductorWorker.init hostname server_url thread_count polling_interval worker_id) =
      (isOkE (pyFloat thread_count) && isOkE (pyFloat polling_interval))
    ∧ (∀ a b, pyFloat thread_count = .ok a → pyFloat polling_interval = .ok b →
        ConductorWorker.init hostname server_url thread_count polling_interval worker_id =
          .ok ⟨⟨server_url⟩, ⟨server_url⟩, a, b,
            if worker_id.truthy then worker_id else .str hostname⟩) := by
  constructor
  · cases ht : pyFloat thread_count with
    | error e => simp [ConductorWorker.init, isOkE, ht]
    | ok a =>
      cases hp : pyFloat polling_interval with
      | error e => simp [ConductorWorker.init, isOkE, ht, hp]
      | ok b => simp [ConductorWorker.init, isOkE, ht, hp]
  · intro a b ha hb
    simp [ConductorWorker.init, ha, hb]

/-- Witness for C8: `ConductorWorker('http://localhost:8080/api', 5,
'0.1')` succeeds storing `5.0` and `0.1`, while a non-numeric
`thread_count` makes construction fail. -/
theorem init_ok_iff_convertible_witness :
    isOkE (ConductorWorker.init "myhost" "http://localhost:8080/api"
        (.int 5) (.str "0.1") PyVal.none) =
      (isOkE (pyFloat (.int 5)) && isOkE (pyFloat (.str "0.1")))
    ∧ ConductorWorker.init "myhost" "http://localhost:8080/api"
        (.int 5) (.float ((1 : Rat)/10)) PyVal.none =
      .ok ⟨⟨"http://localhost:8080/api"⟩, ⟨"http://localhost:8080/api"⟩,
        5, (1 : Rat)/10,
        if (PyVal.none).truthy then PyVal.none else .str "myhost"⟩
    ∧ isOkE (ConductorWorker.init "myhost" "http://localhost:8080/api"
        (.list []) (.int 1) PyVal.none) = false :=
  ⟨(init_ok_iff_convertible "myhost" "http://localhost:8080/api"
      (.int 5) (.str "0.1") PyVal.none).1,
    (init_ok_iff_convertible "myhost" "http://localhost:8080/api"
      (.int 5) (.float ((1 : Rat)/10)) PyVal.none).2 5 ((1 : Rat)/10) rfl rfl,
    by
      rw [(init_ok_iff_convertible "myhost" "http://localhost:8080/api"
        (.list []) (.int 1) PyVal.none).1]
      rfl⟩

/-- C10: for numeric configuration arguments, construction stores
`worker_id or hostname` as the worker identity: a truthy `worker_id` is
stored exactly as given, while a falsy one (the default `None`, or an
empty string) is replaced by the module-level host name. -/
theorem init_worker_id_default (hostname server_url : String)
    (thread_count polling_interval worker_id : PyVal) (a b : Rat)
    (ha : pyFloat thread_count = .ok a) (hb : pyFloat polling_interval = .ok b) :
    ConductorWorker.init hostname server_url thread_count polling_interval worker_id =
      .ok ⟨⟨server_url⟩, ⟨server_url⟩, a, b,
        if worker_id.truthy then worker_id else .str hostname⟩
    ∧ (worker_id.truthy = true →
        (if worker_id.truthy then worker_id else .str hostname) = worker_id)
    ∧ ((worker_id = PyVal.none ∨ worker_id = .str "") →
        (if worker_id.truthy then worker_id else .str hostname) = .str hostname) := by
  refine ⟨by simp [ConductorWorker.init, ha, hb], ?_, ?_⟩
  · intro h; simp [h]
  · rintro (rfl | rfl) <;> rfl

/-- Witness for C10: the default `None` worker id resolves to the host
name, and the truthy worker id `'w1'` is stored as given. -/
theorem init_worker_id_default_witness :
    (ConductorWorker.init "myhost" "http://localhost:8080/api"
        (.int 1) (.int 1) PyVal.none =
      .ok ⟨⟨"http://localhost:8080/api"⟩, ⟨"http://localhost:8080/api"⟩, 1, 1,
        if (PyVal.none).truthy then PyVal.none else .str "myhost"⟩
    ∧ ((PyVal.none).truthy = true →
        (if (PyVal.none).truthy then PyVal.none else .str "myhost") = PyVal.none)
    ∧ ((PyVal.none = PyVal.none ∨ PyVal.none = .str "") →
        (if (PyVal.none).truthy then PyVal.none else .str "myhost") = .str "myhost"))
    ∧ (ConductorWorker.init "myhost" "http://localhost:8080/api"
        (.int 1) (.int 1) (.str "w1") =
      .ok ⟨⟨"http://localhost:8080/api"⟩, ⟨"http://localhost:8080/api"⟩, 1, 1,
        if (PyVal.str "w1").truthy then PyVal.str "w1" else .str "myhost"⟩
    ∧ ((PyVal.str "w1").truthy = true →
        (if (PyVal.str "w1").truthy then PyVal.str "w1" else .str "myhost") =
          PyVal.str "w1")
    ∧ ((PyVal.str "w1" = PyVal.none ∨ PyVal.str "w1" = .str "") →
        (if (PyVal.str "w1").truthy then PyVal.str "w1" else .str "myhost") =
          .str "myhost")) :=
  ⟨init_worker_id_default "myhost" "http://localhost:8080/api"
      (.int 1) (.int 1) PyVal.none 1 1 rfl rfl,
    init_worker_id_default "myhost" "http://localhost:8080/api"
      (.int 1) (.int 1) (.str "w1") 1 1 rfl rfl⟩

end PyConductor
